import Mathlib

/-!
Verification development for `genvideo.py` (arisris/ai-video-generator).

The Python script is shallowly embedded: pure string manipulation becomes
Lean functions on `String`/`List Char`, network and filesystem effects are
passed explicitly (the pre-state of a destination file, the response of the
network for a given URL), real-valued media durations become `ℚ`, and fatal
`sys.exit(1)` terminations become `Except Unit`.
-/

namespace GenVideo

/-- A file body: an abstract byte sequence. -/
def Content : Type := List Nat

instance : DecidableEq Content := by
  unfold Content
  infer_instance

/-! ### slugify (genvideo.py lines 58-66)

Python: lower-case, drop every character outside `[a-z0-9\s-]`, replace each
maximal run of `[\s-]` by a single dash, strip leading and trailing dashes. -/

/-- ASCII whitespace recognized by the Python regex class `\s`. -/
def pyIsSpace (c : Char) : Bool :=
  c = ' ' || c = '\t' || c = '\n' || c = '\r' || c = Char.ofNat 11 || c = Char.ofNat 12

/-- Characters kept by `re.sub(r'[^a-z0-9\s-]', '', text)` after lowering. -/
def slugKeep (c : Char) : Bool :=
  ('a' ≤ c && c ≤ 'z') || ('0' ≤ c && c ≤ '9') || pyIsSpace c || c = '-'

/-- Collapse consecutive dashes into one dash (the effect of
`re.sub(r'[\s-]+', '-', ...)` after every `[\s-]` character was mapped to a dash). -/
def squeezeDash : List Char → List Char
  | [] => []
  | [c] => [c]
  | a :: b :: rest =>
    if a = '-' && b = '-' then squeezeDash (b :: rest)
    else a :: squeezeDash (b :: rest)

/-- `slugify` from genvideo.py lines 58-66. -/
def slugify (text : String) : String :=
  let lowered := text.data.map Char.toLower
  let filtered := lowered.filter slugKeep
  let dashed := filtered.map (fun c => if pyIsSpace c || c = '-' then '-' else c)
  let squeezed := squeezeDash dashed
  let stripped :=
    ((squeezed.dropWhile (fun c => c = '-')).reverse.dropWhile (fun c => c = '-')).reverse
  String.mk stripped

/-! ### Cache directory layout (genvideo.py lines 68-87) -/

/-- `setup_cache_directories`: base path `cache/<slug(title)>`. -/
def baseCachePath (story_title : String) : String :=
  "cache/" ++ slugify story_title

/-- Images directory of the cache tree. -/
def imagesDirOf (story_title : String) : String :=
  baseCachePath story_title ++ "/images"

/-- Audio directory of the cache tree. -/
def audioDirOf (story_title : String) : String :=
  baseCachePath story_title ++ "/audio"

/-! ### URL construction (genvideo.py lines 48-52, urllib quote) -/

/-- One hexadecimal digit, upper case. -/
def hexDigit (n : Nat) : Char :=
  if n < 10 then Char.ofNat (48 + n) else Char.ofNat (65 + (n - 10))

/-- `urllib.parse.quote` restricted to its ASCII behavior: letters, digits,
`_.-~` and `/` pass through, anything else is percent-encoded from its code
point (faithful for the ASCII inputs the claims exercise). -/
def quote (s : String) : String :=
  String.join (s.data.map (fun c =>
    if c.isAlphanum || c = '_' || c = '.' || c = '-' || c = '~' || c = '/' then
      String.singleton c
    else
      String.mk ['%', hexDigit (c.toNat / 16 % 16), hexDigit (c.toNat % 16)]))

/-- `URL_IMAGE.format(prompt=..., seed=...)` (genvideo.py line 50). -/
def URL_IMAGE (prompt : String) (seed : Int) : String :=
  "https://image.pollinations.ai/prompt/" ++ prompt ++
    "?width=720&height=1280&nologo=true&safe=true&seed=" ++ toString seed

/-- `URL_AUDIO.format(prompt=...)` (genvideo.py line 51). -/
def URL_AUDIO_ENDPOINT (prompt : String) : String :=
  "https://text.pollinations.ai/" ++ prompt ++ "?model=openai-audio&voice=nova"

/-- Default image seed (genvideo.py line 54). -/
def DEFAULT_SEED : Int := 5000

/-! ### download_file (genvideo.py lines 89-110)

The function receives the pre-state of the destination file (`none` when it
does not exist) and the outcome the network produces for this URL. It
returns the reported boolean, the post-state of the destination file, and
the number of network requests issued. -/

/-- Outcome of the single `requests.get` attempt in `download_file`:
either a full body, a failure before anything is written (connection error or
non-2xx status raised by `raise_for_status`), or a failure in the middle of
the chunked body copy that leaves a partial file behind. -/
inductive FetchAttempt
  | success (body : Content)
  | connectError
  | streamError (written : Content)

/-- `download_file(url, destination)`: cache-first short circuit, then one
network attempt; every `requests.exceptions.RequestException` is caught and
reported as the value `false`. -/
def download_file (dest : Option Content) (attempt : FetchAttempt) :
    Bool × Option Content × Nat :=
  match dest with
  | some c => (true, some c, 0)
  | none =>
    match attempt with
    | .success body => (true, some body, 1)
    | .connectError => (false, none, 1)
    | .streamError written => (false, some written, 1)

/-! ### download_all_assets (genvideo.py lines 157-188) -/

/-- One story segment of the generated story JSON. -/
structure Segment where
  voice_prompt : String
  image_prompt : String
deriving DecidableEq

/-- The asset set handed downstream by `download_all_assets`. -/
structure AssetSet where
  images : List String
  audio : String
deriving DecidableEq

/-- The environment of a run: the pre-state of each destination file and the
network outcome for each URL. -/
structure RunEnv where
  fs : String → Option Content
  net : String → FetchAttempt

/-- The image loop of `download_all_assets` (lines 164-172): for segment `i`,
build the URL from the quoted image prompt and the seed, the destination from
the images directory and the index, call `download_file`, and keep the
destination path only when it reports success. -/
def collectImagePaths (imagesDir : String) (seed : Int) (env : RunEnv) :
    Nat → List Segment → List String
  | _, [] => []
  | i, seg :: rest =>
    let url := URL_IMAGE (quote seg.image_prompt) seed
    let dest := imagesDir ++ "/image_" ++ toString (i + 1) ++ ".jpg"
    if (download_file (env.fs dest) (env.net url)).fst then
      dest :: collectImagePaths imagesDir seed env (i + 1) rest
    else
      collectImagePaths imagesDir seed env (i + 1) rest

/-- The audio prompt of lines 178-179. -/
def audioPrompt (segments : List Segment) : String :=
  "Use a storyteller tone and read the following text exactly as it is, without any changes: "
    ++ String.intercalate " " (segments.map (fun seg => seg.voice_prompt))

/-- `download_all_assets(story_data, seed, cache_paths)`: download every
per-segment image, abort (`sys.exit(1)`, modelled as `Except.error`) unless
every image succeeded, then download the single narration track, aborting on
failure; otherwise return the asset set. -/
def download_all_assets (title : String) (segments : List Segment) (seed : Int)
    (env : RunEnv) : Except Unit AssetSet :=
  let image_paths := collectImagePaths (imagesDirOf title) seed env 0 segments
  if image_paths.length ≠ segments.length then
    .error ()
  else
    let audio_url := URL_AUDIO_ENDPOINT (quote (audioPrompt segments))
    let audio_dest := audioDirOf title ++ "/narration.mp3"
    if (download_file (env.fs audio_dest) (env.net audio_url)).fst then
      .ok { images := image_paths, audio := audio_dest }
    else
      .error ()

/-- Whether the image fetch for segment index `i` reports success in `env`. -/
def imageFetchOk (imagesDir : String) (seed : Int) (env : RunEnv) (i : Nat)
    (seg : Segment) : Bool :=
  (download_file
    (env.fs (imagesDir ++ "/image_" ++ toString (i + 1) ++ ".jpg"))
    (env.net (URL_IMAGE (quote seg.image_prompt) seed))).fst

/-- An environment in which every destination is absent and every network
request fails with a connection error. -/
def envAllFail : RunEnv := { fs := fun _ => none, net := fun _ => .connectError }

/-- An environment in which every destination is absent and every network
request succeeds with the body `body`. -/
def envAllOk (body : Content) : RunEnv :=
  { fs := fun _ => none, net := fun _ => .success body }

/-- Unfolding of the image loop on a non-empty segment list. -/
theorem collectImagePaths_cons (d : String) (s : Int) (env : RunEnv) (i : Nat)
    (seg : Segment) (rest : List Segment) :
    collectImagePaths d s env i (seg :: rest) =
      if imageFetchOk d s env i seg then
        (d ++ "/image_" ++ toString (i + 1) ++ ".jpg") ::
          collectImagePaths d s env (i + 1) rest
      else collectImagePaths d s env (i + 1) rest := rfl

/-- The image loop keeps at most one path per segment. -/
theorem collectImagePaths_length_le (d : String) (s : Int) (env : RunEnv) :
    ∀ (segs : List Segment) (i : Nat),
      (collectImagePaths d s env i segs).length ≤ segs.length := by
  intro segs
  induction segs with
  | nil => intro i; simp [collectImagePaths]
  | cons seg rest ih =>
    intro i
    rw [collectImagePaths_cons]
    by_cases hok : imageFetchOk d s env i seg
    · rw [if_pos hok]
      simpa using ih (i + 1)
    · rw [if_neg hok]
      exact (ih (i + 1)).trans (Nat.le_succ _)

/-- A single failed image fetch makes the collected path list strictly
shorter than the segment list. -/
theorem collectImagePaths_length_lt_of_fail (d : String) (s : Int) (env : RunEnv) :
    ∀ (segs : List Segment) (i j : Nat) (h : j < segs.length),
      imageFetchOk d s env (i + j) (segs.get ⟨j, h⟩) = false →
      (collectImagePaths d s env i segs).length < segs.length := by
  intro segs
  induction segs with
  | nil => intro i j h; exact absurd h (by simp)
  | cons seg rest ih =>
    intro i j h hfail
    rw [collectImagePaths_cons]
    cases j with
    | zero =>
      have hfail0 : imageFetchOk d s env i seg = false := by simpa using hfail
      rw [if_neg (by simp [hfail0])]
      exact Nat.lt_succ_of_le (collectImagePaths_length_le d s env rest (i + 1))
    | succ j' =>
      have h' : j' < rest.length := Nat.lt_of_succ_lt_succ h
      have hfail' : imageFetchOk d s env ((i + 1) + j') (rest.get ⟨j', h'⟩) = false := by
        have : i + (j' + 1) = (i + 1) + j' := by omega
        simpa [this] using hfail
      have hlt := ih (i + 1) j' h' hfail'
      by_cases hok : imageFetchOk d s env i seg
      · rw [if_pos hok]
        simpa using Nat.succ_lt_succ hlt
      · rw [if_neg hok]
        exact Nat.lt_succ_of_lt hlt

/-- C7: when the destination already exists, `download_file` returns success
with zero network requests and an unchanged file; and after any successful
call, a second call on the resulting file state again returns success with
zero network requests and leaves the file unchanged. -/
theorem download_file_cache_first_idempotent (c : Content) (a : FetchAttempt)
    (d : Option Content) (a₁ a₂ : FetchAttempt)
    (h : (download_file d a₁).fst = true) :
    download_file (some c) a = (true, some c, 0) ∧
    download_file (download_file d a₁).snd.fst a₂ =
      (true, (download_file d a₁).snd.fst, 0) := by
  refine ⟨rfl, ?_⟩
  cases d with
  | some c => rfl
  | none =>
    cases a₁ with
    | success body => rfl
    | connectError => exact absurd h (by simp [download_file])
    | streamError written => exact absurd h (by simp [download_file])

theorem download_file_cache_first_idempotent_witness :
    download_file (some ([7] : Content)) .connectError = (true, some ([7] : Content), 0) ∧
    download_file (download_file none (.success ([7] : Content))).snd.fst .connectError =
      (true, (download_file none (.success ([7] : Content))).snd.fst, 0) :=
  download_file_cache_first_idempotent ([7] : Content) .connectError none
    (.success ([7] : Content)) .connectError rfl

/-- C8: `download_all_assets` is all-or-nothing. A returned asset set always
has exactly one image path per segment plus the narration path; if any image
fetch reports failure, or the narration fetch reports failure, the whole run
aborts with a fatal error and no asset set is returned. -/
theorem download_all_assets_all_or_nothing (title : String) (segments : List Segment)
    (seed : Int) (env : RunEnv) :
    (∀ assets, download_all_assets title segments seed env = .ok assets →
      assets.images.length = segments.length ∧
      assets.audio = audioDirOf title ++ "/narration.mp3") ∧
    ((∃ j, ∃ h : j < segments.length,
        imageFetchOk (imagesDirOf title) seed env j (segments.get ⟨j, h⟩) = false) →
      download_all_assets title segments seed env = .error ()) ∧
    ((download_file (env.fs (audioDirOf title ++ "/narration.mp3"))
        (env.net (URL_AUDIO_ENDPOINT (quote (audioPrompt segments))))).fst = false →
      download_all_assets title segments seed env = .error ()) := by
  refine ⟨?_, ?_, ?_⟩
  · intro assets hok
    unfold download_all_assets at hok
    by_cases hlen :
        (collectImagePaths (imagesDirOf title) seed env 0 segments).length = segments.length
    · rw [if_neg (by simpa using hlen)] at hok
      by_cases haud : (download_file (env.fs (audioDirOf title ++ "/narration.mp3"))
          (env.net (URL_AUDIO_ENDPOINT (quote (audioPrompt segments))))).fst = true
      · rw [if_pos haud] at hok
        have := hok
        simp only [Except.ok.injEq] at this
        subst this
        exact ⟨hlen, rfl⟩
      · rw [if_neg haud] at hok
        exact absurd hok (by simp)
    · rw [if_pos hlen] at hok
      exact absurd hok (by simp)
  · rintro ⟨j, h, hfail⟩
    have hlt := collectImagePaths_length_lt_of_fail (imagesDirOf title) seed env
      segments 0 j h (by simpa using hfail)
    unfold download_all_assets
    rw [if_pos (Nat.ne_of_lt hlt)]
  · intro haud
    unfold download_all_assets
    by_cases hlen :
        (collectImagePaths (imagesDirOf title) seed env 0 segments).length = segments.length
    · rw [if_neg (by simpa using hlen), if_neg (by simp [haud])]
    · rw [if_pos hlen]

theorem download_all_assets_all_or_nothing_witness :
    download_all_assets "t" [{ voice_prompt := "v", image_prompt := "p" }] 5 envAllFail =
      .error () :=
  (download_all_assets_all_or_nothing "t" [{ voice_prompt := "v", image_prompt := "p" }]
    5 envAllFail).2.1 ⟨0, Nat.zero_lt_one, rfl⟩

/-- When every fetch succeeds, the collected image destinations are exactly
`<imagesDir>/image_<i+k+1>.jpg` for `k` ranging over the segment indices:
they depend only on the images directory and the indices. -/
theorem collectImagePaths_all_success (d : String) (s : Int) (body : Content) :
    ∀ (segs : List Segment) (i : Nat),
      collectImagePaths d s (envAllOk body) i segs =
        (List.range segs.length).map
          (fun k => d ++ "/image_" ++ toString (i + k + 1) ++ ".jpg") := by
  intro segs
  induction segs with
  | nil => intro i; simp [collectImagePaths]
  | cons seg rest ih =>
    intro i
    rw [collectImagePaths_cons]
    have hok : imageFetchOk d s (envAllOk body) i seg = true := rfl
    rw [if_pos hok, List.length_cons, List.range_succ_eq_map, List.map_cons, List.map_map]
    have : ((fun k => d ++ "/image_" ++ toString (i + k + 1) ++ ".jpg") ∘ Nat.succ) =
        (fun k => d ++ "/image_" ++ toString ((i + 1) + k + 1) ++ ".jpg") := by
      funext k
      simp only [Function.comp]
      have : i + Nat.succ k + 1 = (i + 1) + k + 1 := by omega
      rw [this]
    rw [this, ih (i + 1)]

/-- C9 (amended): the destination paths that the image loop targets are a
function of the story title (through the cache directory) and the segment
index alone; two runs whose segment lists have the same length produce
identical destination paths for arbitrary prompts and seeds. The fetch URL,
not the path, is the part that is a function of the prompt and seed. -/
theorem image_cache_path_depends_on_title_and_index (title : String)
    (seed₁ seed₂ : Int) (body₁ body₂ : Content) (segs₁ segs₂ : List Segment)
    (hlen : segs₁.length = segs₂.length) :
    collectImagePaths (imagesDirOf title) seed₁ (envAllOk body₁) 0 segs₁ =
      collectImagePaths (imagesDirOf title) seed₂ (envAllOk body₂) 0 segs₂ ∧
    collectImagePaths (imagesDirOf title) seed₁ (envAllOk body₁) 0 segs₁ =
      (List.range segs₁.length).map
        (fun k => imagesDirOf title ++ "/image_" ++ toString (k + 1) ++ ".jpg") ∧
    URL_IMAGE (quote "p") seed₁ =
      "https://image.pollinations.ai/prompt/p?width=720&height=1280&nologo=true&safe=true&seed="
        ++ toString seed₁ := by
  refine ⟨?_, ?_, rfl⟩
  · rw [collectImagePaths_all_success, collectImagePaths_all_success, hlen]
  · rw [collectImagePaths_all_success]
    simp [Nat.zero_add]

theorem image_cache_path_depends_on_title_and_index_witness :
    collectImagePaths (imagesDirOf "t") 1 (envAllOk []) 0
        [{ voice_prompt := "v", image_prompt := "p" }] =
      collectImagePaths (imagesDirOf "t") 2 (envAllOk [0]) 0
        [{ voice_prompt := "v", image_prompt := "q" }] :=
  (image_cache_path_depends_on_title_and_index "t" 1 2 [] [0]
    [{ voice_prompt := "v", image_prompt := "p" }]
    [{ voice_prompt := "v", image_prompt := "q" }] rfl).1

/-- C9 counterexample: with the image prompt and the seed held identical, two
runs with different story titles target different destination paths, so the
destination is not a function of `(imagePrompt, seed)` alone. -/
theorem image_cache_path_counterexample :
    collectImagePaths (imagesDirOf "Cat Story") 5000 (envAllOk []) 0
        [{ voice_prompt := "v", image_prompt := "robot" }] ≠
      collectImagePaths (imagesDirOf "Dog Story") 5000 (envAllOk []) 0
        [{ voice_prompt := "v", image_prompt := "robot" }] := by
  decide

/-! ### Whisper transcription data and generate_subtitles (genvideo.py lines 190-243) -/

/-- One word of a Whisper transcription segment. The JSON keys are
`word`, `start`, `end`; `end` is a Lean keyword, hence `startSec`/`endSec`. -/
structure WhisperWord where
  word : String
  startSec : ℚ
  endSec : ℚ
deriving DecidableEq

/-- One Whisper transcription segment (keys `text`, `start`, `end`, `words`). -/
structure WhisperSegment where
  text : String
  startSec : ℚ
  endSec : ℚ
  words : List WhisperWord
deriving DecidableEq

/-- The parsed Whisper output JSON (its `segments` key). -/
structure WhisperData where
  segments : List WhisperSegment
deriving DecidableEq

/-- The subtitle value returned by `generate_subtitles`:
`{"type": "standard", "data": story segments}` or
`{"type": "whisper", "data": transcription}`. -/
inductive SubtitleTrack
  | standard (segs : List Segment)
  | whisper (data : WhisperData)
deriving DecidableEq

/-- Outcome of `subprocess.run` on the Whisper CLI: normal completion that
wrote the transcription JSON, a missing executable (`FileNotFoundError`), or
a non-zero exit (`subprocess.CalledProcessError`). -/
inductive WhisperRun
  | ok (data : WhisperData)
  | fileNotFound
  | calledProcessError (stderr : String)

/-- `generate_subtitles(use_whisper, ...)`. Inputs: the mode flag, the cached
transcription (content of `subtitles/<stem>.json` when present) and the
subprocess outcome. Output: the subtitle track together with the number of
subprocess invocations performed. Both exception handlers recurse with
`use_whisper=False` (genvideo.py lines 234 and 239). -/
def generate_subtitles : Bool → Option WhisperData → WhisperRun → List Segment →
    SubtitleTrack × Nat
  | false, _, _, segs => (.standard segs, 0)
  | true, some cached, _, _ => (.whisper cached, 0)
  | true, none, .ok data, _ => (.whisper data, 1)
  | true, none, .fileNotFound, segs =>
    let fallback := generate_subtitles false none .fileNotFound segs
    (fallback.fst, fallback.snd + 1)
  | true, none, .calledProcessError stderr, segs =>
    let fallback := generate_subtitles false none (.calledProcessError stderr) segs
    (fallback.fst, fallback.snd + 1)
termination_by b _ _ _ => b.toNat
decreasing_by all_goals decide

/-- C2: with word-level mode on, no cached transcription, and a failing
subprocess (missing executable or non-zero exit), `generate_subtitles`
invokes the subprocess exactly once and terminates with the standard
(sentence) track built from the story segments. -/
theorem generate_subtitles_single_fallback (run : WhisperRun) (segs : List Segment)
    (hfail : run = .fileNotFound ∨ ∃ e, run = .calledProcessError e) :
    generate_subtitles true none run segs = (.standard segs, 1) := by
  rcases hfail with h | ⟨e, h⟩ <;> subst h <;> simp [generate_subtitles]

theorem generate_subtitles_single_fallback_witness :
    generate_subtitles true none .fileNotFound
        [{ voice_prompt := "v", image_prompt := "p" }] =
      (.standard [{ voice_prompt := "v", image_prompt := "p" }], 1) :=
  generate_subtitles_single_fallback .fileNotFound
    [{ voice_prompt := "v", image_prompt := "p" }] (Or.inl rfl)

/-! ### Whisper-mode visual clips (genvideo.py lines 268-282) -/

/-- A base visual clip of the whisper regime: the image it holds and the
duration assigned by `set_duration`. -/
structure VideoClipSpec where
  image : String
  duration : ℚ
deriving DecidableEq

/-- The whisper-mode clip loop: for transcription segment `i`, duration
`end - start` and image `raw_image_clips[i % len(raw_image_clips)]`
(image recycling). Total via `getD`; the source indexing is valid whenever
the image list is non-empty. -/
def whisperVideoClips (images : List String) (segs : List WhisperSegment) :
    List VideoClipSpec :=
  segs.enum.map (fun p =>
    { image := images.getD (p.fst % images.length) ""
      duration := p.snd.endSec - p.snd.startSec })

theorem whisperVideoClips_length (images : List String) (segs : List WhisperSegment) :
    (whisperVideoClips images segs).length = segs.length := by
  simp [whisperVideoClips]

/-- C10: in the whisper regime with at least one image, transcription segment
`i` receives exactly one visual clip, holding the image at index
`i % imageCount` and lasting that segment's `end - start`. -/
theorem whisper_clips_one_per_segment (images : List String) (segs : List WhisperSegment)
    (him : 0 < images.length) (i : Nat) (hi : i < segs.length) :
    (whisperVideoClips images segs).length = segs.length ∧
    (whisperVideoClips images segs)[i]? =
      some { image := images.get ⟨i % images.length, Nat.mod_lt i him⟩
             duration := (segs.get ⟨i, hi⟩).endSec - (segs.get ⟨i, hi⟩).startSec } := by
  refine ⟨whisperVideoClips_length images segs, ?_⟩
  have hgetD : images.getD (i % images.length) "" =
      images.get ⟨i % images.length, Nat.mod_lt i him⟩ := by
    rw [List.getD_eq_getElem?_getD, List.getElem?_eq_getElem (Nat.mod_lt i him)]
    rfl
  simp [whisperVideoClips, List.getElem?_map, hi, hgetD, List.getElem?_enum,
    List.get_eq_getElem, List.getElem?_eq_getElem]
  rw [List.getElem?_eq_getElem (Nat.mod_lt i him)]
  rfl

theorem whisper_clips_one_per_segment_witness :
    (whisperVideoClips ["a.jpg"] [{ text := "t", startSec := 0, endSec := 2, words := [] }]).length
        = 1 ∧
    (whisperVideoClips ["a.jpg"]
        [{ text := "t", startSec := 0, endSec := 2, words := [] }])[0]? =
      some { image := ["a.jpg"].get ⟨0 % 1, Nat.mod_lt 0 Nat.zero_lt_one⟩, duration := 2 - 0 } :=
  whisper_clips_one_per_segment ["a.jpg"]
    [{ text := "t", startSec := 0, endSec := 2, words := [] }] Nat.zero_lt_one 0 Nat.zero_lt_one

/-! ### Karaoke subtitle overlays (genvideo.py lines 301-324) -/

/-- Python `str.strip()` on ASCII whitespace. -/
def pyStrip (s : String) : String :=
  String.mk (((s.data.dropWhile pyIsSpace).reverse.dropWhile pyIsSpace).reverse)

/-- A subtitle overlay: its text, color, start time and duration
(`set_start` / `set_duration` of the TextClip). -/
structure OverlaySpec where
  text : String
  color : String
  startSec : ℚ
  durationSec : ℚ
deriving DecidableEq

/-- The white full-sentence background TextClip of a segment (lines 308-313). -/
def sentenceBackgroundClip (seg : WhisperSegment) : OverlaySpec :=
  { text := pyStrip seg.text
    color := "white"
    startSec := seg.startSec
    durationSec := seg.endSec - seg.startSec }

/-- The yellow highlight TextClips of a segment (lines 316-324): for the
word at position `j`, the text is the space-join of the stripped words
`words[:j+1]`, active from that word's start for `end - start`. -/
def highlightClips (seg : WhisperSegment) : List OverlaySpec :=
  seg.words.enum.map (fun jw =>
    { text := String.intercalate " "
        ((seg.words.take (jw.fst + 1)).map (fun w => pyStrip w.word))
      color := "yellow"
      startSec := jw.snd.startSec
      durationSec := jw.snd.endSec - jw.snd.startSec })

/-- All subtitle clips of the whisper regime, in emission order (lines 301-324). -/
def allSubtitleClips (segs : List WhisperSegment) : List OverlaySpec :=
  segs.foldl (fun acc seg => acc ++ (sentenceBackgroundClip seg :: highlightClips seg)) []

/-- The highlight text exactly as the claim words it: the space-joined
concatenation of every word of the segment whose start timestamp is at most
the start of `w`. Spec-side definition, for comparison with `highlightClips`. -/
def claimedHighlightText (seg : WhisperSegment) (w : WhisperWord) : String :=
  String.intercalate " "
    ((seg.words.filter (fun v => decide (v.startSec ≤ w.startSec))).map
      (fun v => pyStrip v.word))

/-- A segment whose two words tie on their start timestamp. It satisfies the
WordTimed invariant as the claim states it: `startSec ≤ endSec` everywhere,
words sorted ascending (non-strictly) by `startSec`, and the half-open word
intervals `[1,1)` and `[1,2)` do not overlap. -/
def tieSegment : WhisperSegment :=
  { text := "a b"
    startSec := 1
    endSec := 2
    words := [{ word := "a", startSec := 1, endSec := 1 },
              { word := "b", startSec := 1, endSec := 2 }] }

/-- C3 counterexample: in `tieSegment`, for the word `a` the claim demands an
overlay with text `"a b"` (both words start at `1 ≤ 1`) active on `[1, 1)`;
the code emits the texts `["a", "a b"]` by index prefix, and no emitted
overlay has the demanded text and interval, so there is not exactly one. -/
theorem highlight_text_start_filter_counterexample :
    claimedHighlightText tieSegment { word := "a", startSec := 1, endSec := 1 } = "a b" ∧
    (highlightClips tieSegment).map (fun o => o.text) = ["a", "a b"] ∧
    ∀ o ∈ highlightClips tieSegment,
      ¬(o.text = "a b" ∧ o.startSec = 1 ∧ o.durationSec = 0) := by
  refine ⟨?_, ?_, ?_⟩
  · norm_num [claimedHighlightText, tieSegment, List.filter]
    decide
  · norm_num [highlightClips, tieSegment, List.enum, List.enumFrom]
    exact ⟨by decide, by decide⟩
  · intro o ho
    norm_num [highlightClips, tieSegment, List.enum, List.enumFrom] at ho
    rcases ho with h | h
    · subst h
      intro hc
      exact absurd hc.1 (by decide)
    · subst h
      intro hc
      have h0 : (1 : ℚ) = 0 := hc.2.2
      norm_num at h0

/-- On a list strictly sorted by start timestamp, keeping every element whose
start is at most that of the element at position `j` keeps exactly the
prefix of length `j + 1`. -/
theorem filter_le_start_eq_take (l : List WhisperWord)
    (hsorted : List.Pairwise (fun a b => a.startSec < b.startSec) l) :
    ∀ (j : Nat) (hj : j < l.length),
      l.filter (fun v => decide (v.startSec ≤ (l.get ⟨j, hj⟩).startSec)) =
        l.take (j + 1) := by
  induction l with
  | nil => intro j hj; exact absurd hj (by simp)
  | cons a rest ih =>
    intro j hj
    rcases List.pairwise_cons.mp hsorted with ⟨ha, hrest⟩
    cases j with
    | zero =>
      have hhead : (List.get (a :: rest) ⟨0, hj⟩) = a := rfl
      rw [hhead, List.filter_cons_of_pos (by simp)]
      have hnone : rest.filter (fun v => decide (v.startSec ≤ a.startSec)) = [] := by
        refine List.filter_eq_nil_iff.mpr ?_
        intro v hv
        simp only [decide_eq_true_eq]
        exact not_le.mpr (ha v hv)
      rw [hnone]
      rfl
    | succ j' =>
      have hj' : j' < rest.length := Nat.lt_of_succ_lt_succ hj
      have hkey : (List.get (a :: rest) ⟨j' + 1, hj⟩) = rest.get ⟨j', hj'⟩ := rfl
      rw [hkey]
      have hale : a.startSec ≤ (rest.get ⟨j', hj'⟩).startSec :=
        le_of_lt (ha _ (List.get_mem rest j' hj'))
      rw [List.filter_cons_of_pos (by simpa using hale)]
      rw [ih hrest j' hj']
      rfl

/-- C3 (amended): the code emits exactly one highlight overlay per word of
the segment; for the word at position `j` its text is the space-join of the
stripped words at positions up to and including `j` (an index prefix), and
its active interval starts at that word's start and lasts `end - start`.
When the word starts are strictly increasing, the index prefix coincides
with the set of words whose start is at most that word's start, which is the
start-filter reading of the claim. -/
theorem highlight_overlays_index_prefix (seg : WhisperSegment) (j : Nat)
    (hj : j < seg.words.length) :
    (highlightClips seg).length = seg.words.length ∧
    (highlightClips seg)[j]? =
      some { text := String.intercalate " "
               ((seg.words.take (j + 1)).map (fun w => pyStrip w.word))
             color := "yellow"
             startSec := (seg.words.get ⟨j, hj⟩).startSec
             durationSec := (seg.words.get ⟨j, hj⟩).endSec -
               (seg.words.get ⟨j, hj⟩).startSec } ∧
    (List.Pairwise (fun a b => a.startSec < b.startSec) seg.words →
      String.intercalate " " ((seg.words.take (j + 1)).map (fun w => pyStrip w.word)) =
        claimedHighlightText seg (seg.words.get ⟨j, hj⟩)) := by
  refine ⟨by simp [highlightClips], ?_, ?_⟩
  · simp [highlightClips, List.getElem?_map, List.getElem?_enum,
      List.getElem?_eq_getElem hj, List.get_eq_getElem]
  · intro hsorted
    unfold claimedHighlightText
    rw [filter_le_start_eq_take seg.words hsorted j hj]

/-- A segment with strictly increasing word starts, for the witness. -/
def strictSegment : WhisperSegment :=
  { text := "hi there"
    startSec := 0
    endSec := 2
    words := [{ word := "hi", startSec := 0, endSec := 1 },
              { word := "there", startSec := 1, endSec := 2 }] }

theorem highlight_overlays_index_prefix_witness :
    (highlightClips strictSegment).length = strictSegment.words.length ∧
    claimedHighlightText strictSegment (strictSegment.words.get ⟨1, Nat.one_lt_two⟩) =
      String.intercalate " " ((strictSegment.words.take 2).map (fun w => pyStrip w.word)) := by
  have h := highlight_overlays_index_prefix strictSegment 1 Nat.one_lt_two
  exact ⟨h.1, (h.2.2 (by decide)).symm⟩

/-! ### Ken-Burns zoom curve (genvideo.py lines 274-281 and 336-343) -/

/-- `zoom_factor = 1.25` (lines 276 and 338). -/
def zoom_factor : ℚ := 5 / 4

/-- The body of `animate_zoom(t)`: `1 + (zoom_factor - 1) * (t / duration)`,
as a function of the value the captured variable `duration` holds when the
closure is evaluated. -/
def animate_zoom (duration t : ℚ) : ℚ :=
  1 + (zoom_factor - 1) * (t / duration)

/-- The value the loop variable `duration` holds once the whisper clip loop
has finished: the duration of the last transcription segment (line 271 on
the final iteration). Each iteration defines `animate_zoom` as a closure
over the variable `duration` and passes it to `resize`; moviepy 1.0.3 stores
the function and evaluates it per frame inside `write_videofile`, which runs
after the loop, and Python closures capture variables rather than values, so
every clip reads this final value at render time. -/
def renderTimeZoomDuration (segs : List WhisperSegment) : ℚ :=
  match segs.getLast? with
  | some s => s.endSec - s.startSec
  | none => 0

/-- The zoom scale actually applied to every whisper-regime clip at
clip-local time `t` when the video is rendered. -/
def renderedZoomScale (segs : List WhisperSegment) (t : ℚ) : ℚ :=
  animate_zoom (renderTimeZoomDuration segs) t

/-- The zoom curve as the claim words it: `scale(t) = 1 + k * (t / clipDuration)`
with that particular clip's own duration. Spec-side definition for comparison. -/
def specZoomScale (k clipDuration t : ℚ) : ℚ :=
  1 + k * (t / clipDuration)

/-- A failing input for the zoom claim: two transcription segments of
durations 2 and 6 seconds. -/
def zoomBugSegments : List WhisperSegment :=
  [{ text := "s1", startSec := 0, endSec := 2, words := [] },
   { text := "s2", startSec := 2, endSec := 8, words := [] }]

/-- C4 evaluation at the failing input: the constant `k = zoom_factor - 1 =
0.25` does lie in the claimed range, and clip 0 has its own duration 2, but
the scale the code renders for clip 0 at local time `t = 1` is
`1 + 0.25 * (1/6)` (the last duration, 6), not the claimed
`1 + 0.25 * (1/2)`. -/
theorem animate_zoom_rendered_uses_last_duration :
    (whisperVideoClips ["a.jpg"] zoomBugSegments).map (fun c => c.duration) = [2, 6] ∧
    renderedZoomScale zoomBugSegments 1 = 25 / 24 ∧
    specZoomScale (zoom_factor - 1) 2 1 = 9 / 8 ∧
    renderedZoomScale zoomBugSegments 1 ≠ specZoomScale (zoom_factor - 1) 2 1 ∧
    1 / 5 ≤ zoom_factor - 1 ∧ zoom_factor - 1 ≤ 1 / 4 := by
  norm_num [whisperVideoClips, zoomBugSegments, renderedZoomScale, renderTimeZoomDuration,
    animate_zoom, specZoomScale, zoom_factor, List.enum, List.enumFrom, List.getLast?]

/-! ### Transition chain and final duration (genvideo.py lines 284-299,
354-369 and 371-375) -/

/-- `transition_duration = 0.5` (lines 286 and 355). -/
def transition_duration : ℚ := 1 / 2

/-- The four transition kinds drawn by `random.choice` (lines 290 and 358). -/
inductive TransitionKind
  | crossfade
  | slide_in_left
  | slide_in_top
  | fade
deriving DecidableEq

/-- Duration of the composition joining the accumulated timeline (duration
`base`) with the next clip (duration `add`). For `crossfade` and the two
`slide_in` kinds the next clip is started at `base - 0.5` inside a
`CompositeVideoClip`, whose duration is the maximum clip end; for `fade`,
`concatenate_videoclips` with `padding = -0.5` yields `base + add - 0.5`. -/
def joinDuration (k : TransitionKind) (base add : ℚ) : ℚ :=
  match k with
  | .fade => base + add - transition_duration
  | _ => max base (base - transition_duration + add)

/-- Duration of `final_video_base`: the first clip joined with each further
clip under the drawn transition kind. -/
def composedDuration (first : ℚ) (rest : List (TransitionKind × ℚ)) : ℚ :=
  rest.foldl (fun acc p => joinDuration p.fst acc p.snd) first

/-- `avg_duration = narration_audio.duration / len(raw_image_clips)` (line 333). -/
def avg_duration (audioDuration : ℚ) (imageCount : Nat) : ℚ :=
  audioDuration / imageCount

/-- The standard-regime composed visual duration: `imageCount` clips of
`avg_duration` each, joined by the drawn transitions (`ks` holds one kind
per join, i.e. `imageCount - 1` of them). -/
def standardVisualDuration (audioDuration : ℚ) (imageCount : Nat)
    (ks : List TransitionKind) : ℚ :=
  composedDuration (avg_duration audioDuration imageCount)
    (ks.map (fun k => (k, avg_duration audioDuration imageCount)))

/-- The finalization of lines 372-375: `set_audio`, then truncate the video
to the narration duration only when the video is longer. -/
def finalVideoDuration (visual audioDuration : ℚ) : ℚ :=
  if audioDuration < visual then audioDuration else visual

/-- C5 (amended): the emitted duration is `min(visual, narration)`: it never
exceeds the narration duration, and whenever the composed visual duration
exceeds the narration duration the video is truncated to exactly the
narration duration. It equals the narration duration only in that case; when
the composed visual duration falls short (as the transition overlaps make it
in the sentence regime), the emitted duration is the visual duration. -/
theorem final_duration_min_truncation (visual audioDuration : ℚ) :
    finalVideoDuration visual audioDuration = min visual audioDuration ∧
    finalVideoDuration visual audioDuration ≤ audioDuration ∧
    (audioDuration < visual → finalVideoDuration visual audioDuration = audioDuration) := by
  unfold finalVideoDuration
  by_cases h : audioDuration < visual
  · rw [if_pos h]
    exact ⟨(min_eq_right (le_of_lt h)).symm, le_refl _, fun _ => rfl⟩
  · rw [if_neg h]
    exact ⟨(min_eq_left (not_lt.mp h)).symm, not_lt.mp h, fun hc => absurd hc h⟩

theorem final_duration_min_truncation_witness :
    finalVideoDuration 12 10 = 10 :=
  (final_duration_min_truncation 12 10).2.2 (by norm_num)

/-- C5 counterexample: in the sentence regime with 5 images, narration
duration 12.5s and four drawn transitions, the composed visual duration is
`5 * 2.5 - 4 * 0.5 = 10.5`, the finalization leaves it untouched (10.5 is
not longer than 12.5), and the emitted duration is 10.5, not the narration
duration 12.5 - so the final duration does not equal the narration duration. -/
theorem final_duration_not_audio_counterexample :
    standardVisualDuration (25 / 2) 5
        [.crossfade, .slide_in_left, .slide_in_top, .fade] = 21 / 2 ∧
    finalVideoDuration
        (standardVisualDuration (25 / 2) 5
          [.crossfade, .slide_in_left, .slide_in_top, .fade]) (25 / 2) = 21 / 2 ∧
    (21 : ℚ) / 2 ≠ 25 / 2 := by
  have h : standardVisualDuration (25 / 2) 5
      [.crossfade, .slide_in_left, .slide_in_top, .fade] = 21 / 2 := by
    norm_num [standardVisualDuration, composedDuration, joinDuration, avg_duration,
      transition_duration, max_def]
  refine ⟨h, ?_, by norm_num⟩
  rw [h]
  norm_num [finalVideoDuration]

/-! ### RetryFetcher (spec section 4.1)

The repository consists of two script variants (the spec covers their
combined 828 lines); only `genvideo.py` is under src/, and its
`download_file` performs a single attempt. The bounded-retry fetcher of the
other variant is therefore modelled from the spec here. -/

/-- Modelled from the spec: `MAX_RETRIES` of the RetryFetcher in the second
script variant of this repository, which is not under src/. Spec section 4.1
fixes it to 3. -/
def MAX_RETRIES : Nat := 3

/-- Modelled from the spec: the fixed backoff interval, in seconds, waited
between consecutive failed attempts of the RetryFetcher. -/
def BACKOFF_SECONDS : ℚ := 3

/-- Result of a RetryFetcher call: the reported value, the number of
attempts performed, and the number of backoff waits performed. -/
structure RetryFetchResult where
  ok : Bool
  attempts : Nat
  backoffWaits : Nat
deriving DecidableEq

/-- Modelled from the spec: the attempt loop of the RetryFetcher, absent
from src/. `res i` tells whether attempt number `i` succeeds at the
transport level; a failed attempt that is not the final one is followed by
one backoff wait of `BACKOFF_SECONDS`. -/
def retryFetchLoop (res : Nat → Bool) : Nat → Nat → Nat → RetryFetchResult
  | 0, attempts, waits => { ok := false, attempts := attempts, backoffWaits := waits }
  | remaining + 1, attempts, waits =>
    if res attempts then
      { ok := true, attempts := attempts + 1, backoffWaits := waits }
    else if remaining = 0 then
      { ok := false, attempts := attempts + 1, backoffWaits := waits }
    else
      retryFetchLoop res remaining (attempts + 1) (waits + 1)

/-- Modelled from the spec: `fetch(url, destinationPath)` of the
RetryFetcher (spec section 4.1), absent from src/: immediate success without
attempts when the destination exists, otherwise up to `MAX_RETRIES`
sequential attempts with a backoff wait after every failed attempt except
the final one, reporting failure as a value. -/
def retryFetch (destExists : Bool) (res : Nat → Bool) : RetryFetchResult :=
  if destExists then { ok := true, attempts := 0, backoffWaits := 0 }
  else retryFetchLoop res MAX_RETRIES 0 0

/-- C1: on a non-existing destination with every attempt failing at the
transport level, the fetch performs exactly `MAX_RETRIES = 3` sequential
attempts, waits between consecutive attempts but not after the final one
(2 backoff waits), and returns failure as a value. -/
theorem retryFetch_exhausts_three_attempts (res : Nat → Bool)
    (hfail : ∀ i, res i = false) :
    retryFetch false res = { ok := false, attempts := 3, backoffWaits := 2 } ∧
    MAX_RETRIES = 3 := by
  refine ⟨?_, rfl⟩
  simp [retryFetch, MAX_RETRIES, retryFetchLoop, hfail]

theorem retryFetch_exhausts_three_attempts_witness :
    retryFetch false (fun _ => false) =
      { ok := false, attempts := 3, backoffWaits := 2 } :=
  (retryFetch_exhausts_three_attempts (fun _ => false) (fun _ => rfl)).1

/-! ### Padded composition (spec section 4.6, Padding)

The intro/outro padding belongs to the second script variant of this
repository, not under src/ (src/genvideo.py emits no padding clips and
attaches the narration at offset 0); it is modelled from the spec here. -/

/-- The padded timeline emitted by the padding step: the intro and outro
clips, the middle timeline placement, the narration start offset and the
total duration. -/
structure PaddedTimeline where
  introImage : String
  introFadeIn : Bool
  introStart : ℚ
  introDuration : ℚ
  middleStart : ℚ
  middleDuration : ℚ
  outroImage : String
  outroFadeOut : Bool
  outroStart : ℚ
  outroDuration : ℚ
  narrationStart : ℚ
  totalDuration : ℚ
deriving DecidableEq

/-- Modelled from the spec: the padding step of the TimelineComposer in the
second script variant, not under src/. A fixed-duration intro clip holding
the first image with a fade-in is prepended, a fixed-duration outro clip
holding the last image with a fade-out is appended, and the narration start
offset is shifted forward by the intro duration. -/
def composeWithPadding (images : List String)
    (middleDuration introDuration outroDuration : ℚ) : PaddedTimeline :=
  { introImage := images.headD ""
    introFadeIn := true
    introStart := 0
    introDuration := introDuration
    middleStart := introDuration
    middleDuration := middleDuration
    outroImage := images.getLastD ""
    outroFadeOut := true
    outroStart := introDuration + middleDuration
    outroDuration := outroDuration
    narrationStart := introDuration
    totalDuration := introDuration + middleDuration + outroDuration }

/-- C6: the padded composition prepends an intro clip holding the first
image with a fade-in, appends an outro clip holding the last image with a
fade-out right after the middle timeline, and shifts the narration start
forward from 0 by exactly the intro duration, so the narration begins
exactly when the main content begins rather than during the padding. -/
theorem padded_timeline_narration_alignment (images : List String)
    (middleDuration introDuration outroDuration : ℚ) :
    (composeWithPadding images middleDuration introDuration outroDuration).narrationStart =
      (composeWithPadding images middleDuration introDuration outroDuration).middleStart ∧
    (composeWithPadding images middleDuration introDuration outroDuration).narrationStart =
      (composeWithPadding images middleDuration introDuration outroDuration).introStart +
        introDuration ∧
    (composeWithPadding images middleDuration introDuration outroDuration).introImage =
      images.headD "" ∧
    (composeWithPadding images middleDuration introDuration outroDuration).introFadeIn = true ∧
    (composeWithPadding images middleDuration introDuration outroDuration).outroImage =
      images.getLastD "" ∧
    (composeWithPadding images middleDuration introDuration outroDuration).outroFadeOut = true ∧
    (composeWithPadding images middleDuration introDuration outroDuration).middleStart =
      (composeWithPadding images middleDuration introDuration outroDuration).introStart +
        introDuration ∧
    (composeWithPadding images middleDuration introDuration outroDuration).outroStart =
      (composeWithPadding images middleDuration introDuration outroDuration).middleStart +
        middleDuration ∧
    (composeWithPadding images middleDuration introDuration outroDuration).totalDuration =
      introDuration + middleDuration + outroDuration := by
  refine ⟨rfl, by simp [composeWithPadding], rfl, rfl, rfl, rfl,
    by simp [composeWithPadding], rfl, rfl⟩

end GenVideo






